import Mathlib

/-!
Shallow embedding of `src/backend/ats_score_engine.py` (resume-refiner).

Modelling conventions:
* Python floats are modelled as exact rationals (`ℚ`); `round(x, 2)` is
  modelled as round-half-to-even on rationals, matching CPython on the
  values reached here.
* Python strings are modelled as `List Char` (entry points take `String`
  and use `.data`); `str.lower` is modelled as ASCII lowercasing.
* Python `set` values are modelled as insertion-ordered duplicate-free
  lists (`dedupFirst`); only cardinalities and membership matter to the
  claims, never iteration order.
* Python exceptions are modelled with `Except PyErr`; a function that the
  source lets raise is given an `Except` result type.
* Each `re` pattern used by the source is hand-compiled either to a list
  of `Step`s for a small backtracking matcher (result order follows the
  greedy/optional preferences of the Python engine, so the head of the
  result list is the match Python picks), or, for the two lazy `.*?`
  patterns where the matched span matters, to a bespoke scanner whose
  doc comment derives the span from the pattern.
-/

inductive PyErr where
  | unboundLocalError
  | valueError
  | nameError
  deriving DecidableEq, Repr

/-- Python whitespace class: the characters matched by regex `\s` and
split on by `str.split()` / stripped by `str.strip()`. -/
def pyWs (c : Char) : Bool :=
  c = ' ' || c = '\t' || c = '\n' || c = '\r' || c = '\x0b' || c = '\x0c'

/-- ASCII lowercasing of one character, modelling `str.lower`. -/
def lowerChar (c : Char) : Char :=
  if 'A' ≤ c && c ≤ 'Z' then Char.ofNat (c.toNat + 32) else c

/-- Model of `str.lower` (ASCII range). -/
def pyLower (s : List Char) : List Char := s.map lowerChar

/-- Model of `str.strip()` with no argument: drop leading and trailing
whitespace. -/
def pyStrip (s : List Char) : List Char :=
  ((s.dropWhile pyWs).reverse.dropWhile pyWs).reverse

/-- Model of the Python substring test `needle in hay`. -/
def containsSub (hay needle : List Char) : Bool :=
  match hay with
  | [] => needle.isEmpty
  | c :: t => needle.isPrefixOf (c :: t) || containsSub t needle

def pyFindAux (needle : List Char) : List Char → Nat → Int
  | [], i => if needle.isPrefixOf [] then (i : Int) else -1
  | c :: t, i => if needle.isPrefixOf (c :: t) then (i : Int) else pyFindAux needle t (i + 1)

/-- Model of `str.find`: index of the first occurrence, `-1` if absent. -/
def pyFind (hay needle : List Char) : Int := pyFindAux needle hay 0

def pyCountAux (needle : List Char) : Nat → List Char → Nat
  | 0, _ => 0
  | _, [] => 0
  | fuel + 1, c :: t =>
    if needle.isPrefixOf (c :: t) && !needle.isEmpty then
      1 + pyCountAux needle fuel (List.drop (needle.length - 1) t)
    else
      pyCountAux needle fuel t

/-- Model of `str.count`: non-overlapping occurrence count. -/
def pyCount (hay needle : List Char) : Nat := pyCountAux needle hay.length hay

def pySplitWsAux : List Char → List Char → List (List Char)
  | acc, [] => if acc = [] then [] else [acc.reverse]
  | acc, c :: t =>
    if pyWs c then
      if acc = [] then pySplitWsAux [] t else acc.reverse :: pySplitWsAux [] t
    else
      pySplitWsAux (c :: acc) t

/-- Model of `str.split()` with no argument: split on whitespace runs,
dropping empty pieces. -/
def pySplitWs (s : List Char) : List (List Char) := pySplitWsAux [] s

def dedupFirstAux {α : Type} [DecidableEq α] : List α → List α → List α
  | _, [] => []
  | seen, x :: t =>
    if x ∈ seen then dedupFirstAux seen t else x :: dedupFirstAux (x :: seen) t

/-- Insertion-ordered deduplication; models building a Python dict or set
from a sequence (first occurrence kept). -/
def dedupFirst {α : Type} [DecidableEq α] (l : List α) : List α := dedupFirstAux [] l

/-- Round half to even to the nearest integer, as CPython round() does. -/
def rhalfEven (q : ℚ) : ℤ :=
  let n := ⌊q⌋
  let r := q - (n : ℚ)
  if r < 1 / 2 then n
  else if 1 / 2 < r then n + 1
  else if n % 2 = 0 then n else n + 1

/-- Model of Python `round(x, 2)`. -/
def pyRound2 (x : ℚ) : ℚ := ((rhalfEven (x * 100) : ℤ) : ℚ) / 100

/-- Word character for regex `\b` (ASCII approximation of `\w`). -/
def isWordChar (c : Char) : Bool := c.isAlphanum || c = '_'

/-! Backtracking matcher for the regex patterns of the source.

A matcher state is the remaining input together with the character just
before it (needed for the `\b` word-boundary assertion). A `Step`
consumes part of the input and returns the possible successor states in
the preference order of the Python regex engine (greedy quantifiers
longest-first, optional parts present-first, alternatives in source
order), so the head of `runSteps` is the parse Python commits to. -/

abbrev MSt := List Char × Option Char

abbrev Step := MSt → List MSt

/-- Literal string atom. -/
def stepLit (lit : List Char) : Step := fun st =>
  if lit.isPrefixOf st.1 then
    [(st.1.drop lit.length, if lit.isEmpty then st.2 else lit.getLast?)]
  else []

/-- Single character from a class. -/
def stepCls (p : Char → Bool) : Step := fun st =>
  match st.1 with
  | [] => []
  | c :: t => if p c then [(t, some c)] else []

def starAux (p : Char → Bool) : List Char → Option Char → List MSt
  | [], prev => [([], prev)]
  | c :: t, prev =>
    if p c then starAux p t (some c) ++ [(c :: t, prev)] else [(c :: t, prev)]

/-- Greedy `cls*`: all outcomes, longest consumption first. -/
def stepStar (p : Char → Bool) : Step := fun st => starAux p st.1 st.2

/-- Greedy `cls+`. -/
def stepPlus (p : Char → Bool) : Step := fun st => (stepCls p st).flatMap (stepStar p)

/-- Exactly n characters of a class, as in a regex counted repetition. -/
def stepRep (p : Char → Bool) : Nat → Step
  | 0 => fun st => [st]
  | n + 1 => fun st => (stepCls p st).flatMap (stepRep p n)

/-- At most n characters of a class, greedy (most first). -/
def stepUpTo (p : Char → Bool) : Nat → Step
  | 0 => fun st => [st]
  | n + 1 => fun st => (stepCls p st).flatMap (stepUpTo p n) ++ [st]

/-- Counted range repetition like the regex cls-brace-lo-comma-hi. -/
def stepRepRange (p : Char → Bool) (lo hi : Nat) : Step := fun st =>
  (stepRep p lo st).flatMap (stepUpTo p (hi - lo))

/-- Open-ended repetition: at least n characters of a class, greedy. -/
def stepRepAtLeast (p : Char → Bool) (n : Nat) : Step := fun st =>
  (stepRep p n st).flatMap (stepStar p)

/-- Word-boundary assertion regex backslash-b: consumes nothing, holds when
exactly one side of the position is a word character. -/
def stepBnd : Step := fun st =>
  let pw := match st.2 with
    | some c => isWordChar c
    | none => false
  let nw := match st.1.head? with
    | some c => isWordChar c
    | none => false
  if pw != nw then [st] else []

/-- End anchor regex dollar without MULTILINE: end of input, or just before
a final newline. -/
def stepEos : Step := fun st =>
  if st.1 = [] || st.1 = ['\n'] then [st] else []

def runSteps (ss : List Step) (st : MSt) : List MSt :=
  ss.foldl (fun acc s => acc.flatMap s) [st]

/-- Optional group, greedy: the present parse is preferred. -/
def stepOpt (ss : List Step) : Step := fun st => runSteps ss st ++ [st]

/-- Alternation of step sequences, in source order. -/
def stepAlt (bs : List (List Step)) : Step := fun st => bs.flatMap (runSteps · st)

/-- Alternation of literal strings. -/
def stepAltLit (lits : List (List Char)) : Step := fun st =>
  lits.flatMap (fun l => stepLit l st)

/-- Does the pattern match a prefix of this state? -/
def matchesAt (ss : List Step) (st : MSt) : Bool := !(runSteps ss st).isEmpty

/-- Number of characters the match Python commits to consumes at this
state, if any (head of the preference-ordered parses). -/
def firstMatchEnd (ss : List Step) (st : MSt) : Option Nat :=
  match (runSteps ss st).head? with
  | some (rem, _) => some (st.1.length - rem.length)
  | none => none

def reSearchAux (ss : List Step) : Option Char → List Char → Bool
  | prev, [] => matchesAt ss ([], prev)
  | prev, c :: t => matchesAt ss ((c :: t), prev) || reSearchAux ss (some c) t

/-- Model of `re.search(pattern, text) is not None`. -/
def reSearch (ss : List Step) (text : List Char) : Bool := reSearchAux ss none text

def reSearchPosAux (ss : List Step) : Option Char → List Char → Nat → Option Nat
  | prev, [], i => if matchesAt ss ([], prev) then some i else none
  | prev, c :: t, i =>
    if matchesAt ss ((c :: t), prev) then some i else reSearchPosAux ss (some c) t (i + 1)

/-- Start index of the leftmost match, modelling `re.search(...).start()`. -/
def reSearchPos (ss : List Step) (text : List Char) : Option Nat :=
  reSearchPosAux ss none text 0

def countPatAux (matchAt : List Char → Option Nat) : Nat → List Char → Nat
  | 0, _ => 0
  | _, [] => 0
  | fuel + 1, c :: t =>
    match matchAt (c :: t) with
    | some k =>
      if 0 < k then 1 + countPatAux matchAt fuel ((c :: t).drop k)
      else 1 + countPatAux matchAt fuel t
    | none => countPatAux matchAt fuel t

/-- Model of `len(re.findall(pattern, text))`: non-overlapping count,
resuming after the end of the match Python commits to. `matchAt` returns
the consumed length of that match at a position, if any. -/
def countPat (matchAt : List Char → Option Nat) (text : List Char) : Nat :=
  countPatAux matchAt text.length text

/-! Bespoke scanners for the two lazy patterns whose matched span the
source uses. -/

/-- Length of the leading whitespace run. -/
def wsPrefixLen (l : List Char) : Nat := (l.takeWhile pyWs).length

/-- Index of the first newline, if any. -/
def firstNlIdx (l : List Char) : Option Nat :=
  match l with
  | [] => none
  | '\n' :: _ => some 0
  | _ :: t => (firstNlIdx t).map (· + 1)

def sectionSpanAux (lit : List Char) : List Char → Nat → Option (Nat × Nat)
  | [], _ => none
  | c :: t, idx =>
    if c = '\n' then
      let w := wsPrefixLen t
      let rest := t.drop w
      if lit.isPrefixOf rest then
        match firstNlIdx (rest.drop lit.length) with
        | some d => some (idx, idx + 1 + w + lit.length + d + 1)
        | none => sectionSpanAux lit t (idx + 1)
      else sectionSpanAux lit t (idx + 1)
    else sectionSpanAux lit t (idx + 1)

/-- Leftmost match span (start, end) of the pattern newline, `\s*`, literal
`lit`, `.*?`, newline — the section-heading pattern of `check_keywords`
and `check_context_relevance`. The literal starts with a non-whitespace
character, so greedy `\s*` forces it to sit at the end of the maximal
whitespace run; lazy `.*?` cannot cross a newline, so the match ends just
after the first newline following the literal. -/
def sectionSpan (lit text : List Char) : Option (Nat × Nat) :=
  sectionSpanAux lit text 0

def splitAtNl : List Char → Option (List Char × List Char)
  | [] => none
  | '\n' :: t => some ([], t)
  | c :: t => (splitAtNl t).map (fun lr => (c :: lr.1, lr.2))

/-- Leftmost matched line of the pattern newline, `.*?`, literal `kw`,
`.*?`, newline — the content-context pattern of `check_sections`. Since
`.` cannot cross newlines, a match starting at a newline covers exactly
the following line (which must contain `kw` and end in a newline), both
lazy gaps filling the line around `kw`; the group is the line plus its
two delimiting newlines. Returns the line itself (the group stripped of
the delimiters, which `str.strip` would discard anyway). -/
def contentCtxLine (kw : List Char) : List Char → Option (List Char)
  | [] => none
  | '\n' :: t =>
    (match splitAtNl t with
     | none => none
     | some (line, _) =>
       if containsSub line kw then some line else contentCtxLine kw t)
  | _ :: t => contentCtxLine kw t

/-! Section Detector (`check_sections`, lines 36-125). -/

/-- The sections dict of `check_sections`, in source order. -/
def sectionsKeywords : List (String × List String) :=
  [("experience",
    ["experience", "work history", "professional background", "employment",
     "work experience", "career history", "professional experience",
     "employment history", "work background", "professional journey"]),
   ("education",
    ["education", "academic", "qualification", "degree", "university",
     "college", "school", "certification", "academic background",
     "educational background", "academic qualifications", "degrees",
     "certifications", "training", "courses"]),
   ("skills",
    ["skills", "abilities", "competencies", "expertise", "proficiencies",
     "technical skills", "core competencies", "technical expertise",
     "professional skills", "key skills", "skill set", "capabilities",
     "technical proficiencies", "areas of expertise"]),
   ("summary",
    ["summary", "profile", "objective", "about me", "professional summary",
     "career objective", "professional profile", "executive summary",
     "career summary", "personal statement", "professional overview",
     "career profile", "professional statement"]),
   ("projects",
    ["projects", "portfolio", "project experience", "project history",
     "project work", "project portfolio", "project showcase",
     "project achievements", "project highlights", "project details"]),
   ("achievements",
    ["achievements", "accomplishments", "awards", "recognition",
     "honors", "certifications", "professional achievements",
     "key achievements", "notable accomplishments", "awards and recognition"])]

/-- The weights dict of `check_sections` (lines 113-120). -/
def sectionWeights : List (String × ℚ) :=
  [("experience", 0.25), ("education", 0.20), ("skills", 0.20),
   ("summary", 0.15), ("projects", 0.10), ("achievements", 0.10)]

/-- The five header regex templates of `check_sections` (lines 77-83),
instantiated at a (lowercase) keyword; IGNORECASE is modelled by running
them on the lowercased text, under which the class `[A-Z]` of the fourth
template matches any ASCII letter. -/
def headerPatternSteps (kw : List Char) : List (List Step) :=
  [[stepBnd, stepLit kw, stepStar pyWs, stepLit [':']],
   [stepLit ['\n'], stepStar pyWs, stepLit kw, stepStar pyWs, stepLit ['\n']],
   [stepLit ['\n'], stepStar pyWs, stepLit kw, stepStar pyWs,
    stepStar (fun c => c ≠ '\n'), stepLit ['\n'], stepStar pyWs,
    stepCls (fun c => c = '-' || c = '•' || c = '*')],
   [stepLit ['\n'], stepStar pyWs, stepLit kw, stepStar pyWs,
    stepStar (fun c => c ≠ '\n'), stepLit ['\n'], stepStar pyWs,
    stepCls Char.isAlpha],
   [stepLit ['\n'], stepStar pyWs, stepLit kw, stepStar pyWs,
    stepStar (fun c => c ≠ '\n'), stepLit ['\n'], stepStar pyWs,
    stepPlus Char.isDigit, stepLit ['.']]]

/-- Header detection loop of `check_sections` on lowercased text. -/
def headerDetected (lowText : List Char) (kws : List String) : Bool :=
  kws.any (fun kw => (headerPatternSteps kw.data).any (fun p => reSearch p lowText))

/-- Content detection loop of `check_sections` (lines 95-102): the keyword
occurs in the lowercased text and the first line-context match of the
pattern newline `.*?` kw `.*?` newline is longer (stripped) than the
keyword length plus 5. -/
def contentDetected (lowText : List Char) (kws : List String) : Bool :=
  kws.any (fun kw =>
    containsSub lowText kw.data &&
    (match contentCtxLine kw.data lowText with
     | some line => decide (kw.data.length + 5 < (pyStrip line).length)
     | none => false))

/-- Intended per-section score of `check_sections` (lines 104-110). -/
def sectionScore (lowText : List Char) (kws : List String) : ℚ :=
  if headerDetected lowText kws then 1
  else if contentDetected lowText kws then 0.7
  else 0

/-- Modelled from the intent of `check_sections` with the template slip
repaired: the five header templates at lines 77-83 are written as
`fr''` strings but applied with `.format(keyword=keyword)`, so the
intended code uses plain `r''` templates. This definition is that
intended function: header tier 1.0, content tier 0.7, else 0, combined
with the fixed weights. The faithful model is `check_sections` below. -/
def check_sections_intended (lowText : List Char) : ℚ :=
  (sectionsKeywords.map (fun sk =>
    (sectionScore lowText sk.2) *
      ((sectionWeights.find? (fun w => w.1 = sk.1)).map Prod.snd |>.getD 0))).sum

/-- Faithful model of `check_sections` (lines 36-125): the list
`header_patterns` at lines 77-83 is built from `fr''` strings whose
replacement field `keyword` is interpolated immediately, but `keyword`
is the variable of the inner `for` loop at line 86 and has not been
assigned yet on the first iteration of the outer loop, so the function
raises UnboundLocalError on every call before any scoring happens. -/
def check_sections (_lowText : List Char) : Except PyErr ℚ :=
  .error .unboundLocalError

/-! Formatting Analyzer (`check_formatting`, lines 230-298). Its regexes
are searched without IGNORECASE, so character classes are literal. -/

def digitPrefixLen (l : List Char) : Nat := (l.takeWhile Char.isDigit).length

def lowerPrefixLen (l : List Char) : Nat := (l.takeWhile Char.isLower).length

def upWsPrefixLen (l : List Char) : Nat :=
  (l.takeWhile (fun c => c.isUpper || pyWs c)).length

/-- Largest p with 1 ≤ p < r whose character is a newline (backtracking
target for a greedy `[A-Z\s]+` followed by a literal newline). -/
def lastNlIdxBelow (t : List Char) (r : Nat) : Option Nat :=
  (List.range r).foldl
    (fun acc p => if 1 ≤ p && t.get? p == some '\n' then some p else acc) none

/-- Match length at a position for newline `\s*` `\d+` dot (the numbered
bullet pattern, line 236). The classes are disjoint, so the greedy parse
is unique. -/
def numbAt (l : List Char) : Option Nat :=
  match l with
  | '\n' :: t =>
    let w := wsPrefixLen t
    let t1 := t.drop w
    let d := digitPrefixLen t1
    if 0 < d && (t1.drop d).head? == some '.' then some (1 + w + d + 1) else none
  | _ => none

/-- Match length for header shape 1 (line 249): newline, `[A-Z]`,
`[A-Z\s]+`, colon. A colon can only follow the maximal class run, so the
greedy parse is unique. -/
def hdr1At (l : List Char) : Option Nat :=
  match l with
  | '\n' :: u :: t =>
    if u.isUpper then
      let r := upWsPrefixLen t
      if 0 < r && (t.drop r).head? == some ':' then some (2 + r + 1) else none
    else none
  | _ => none

/-- Match length for header shape 2 (line 250): newline, `[A-Z]`,
`[A-Z\s]+`, newline. The trailing newline is itself in the class, so the
greedy engine backtracks to the last newline inside the class run. -/
def hdr2At (l : List Char) : Option Nat :=
  match l with
  | '\n' :: u :: t =>
    if u.isUpper then
      match lastNlIdxBelow t (upWsPrefixLen t) with
      | some p => some (2 + p + 1)
      | none => none
    else none
  | _ => none

/-- Match length for header shape 3 (line 251): newline, `[A-Z][a-z]+`,
`\s`, `[A-Z][a-z]+`, colon. All neighbouring classes are disjoint, so
the greedy parse is unique. -/
def hdr3At (l : List Char) : Option Nat :=
  match l with
  | '\n' :: u :: t =>
    if u.isUpper then
      let r1 := lowerPrefixLen t
      if 0 < r1 then
        match t.drop r1 with
        | s :: u2 :: rest2 =>
          if pyWs s && u2.isUpper then
            let r2 := lowerPrefixLen rest2
            if 0 < r2 && (rest2.drop r2).head? == some ':' then
              some (r1 + r2 + 5)
            else none
          else none
        | _ => none
      else none
    else none
  | _ => none

/-- Match length for header shape 4 (line 252): newline, `\s*`, `\d+`,
dot, `\s*`, `[A-Z][a-z]+`. Neighbouring classes are disjoint, so the
greedy parse is unique. -/
def hdr4At (l : List Char) : Option Nat :=
  match l with
  | '\n' :: t =>
    let w1 := wsPrefixLen t
    let t1 := t.drop w1
    let d := digitPrefixLen t1
    if 0 < d then
      match t1.drop d with
      | '.' :: t2 =>
        let w2 := wsPrefixLen t2
        match t2.drop w2 with
        | u :: t3 =>
          if u.isUpper then
            let r := lowerPrefixLen t3
            if 0 < r then some (1 + w1 + d + 1 + w2 + 1 + r) else none
          else none
        | [] => none
      | _ => none
    else none
  | _ => none

def monthLits : List (List Char) :=
  ["Jan", "Feb", "Mar", "Apr", "May", "Jun", "Jul", "Aug", "Sep", "Oct",
   "Nov", "Dec"].map String.data

/-- Date pattern 1 (line 269): month name, `[a-z]*`, space, four digits,
word-bounded. -/
def dateSteps1 : List Step :=
  [stepBnd, stepAltLit monthLits, stepStar Char.isLower, stepLit [' '],
   stepRep Char.isDigit 4, stepBnd]

/-- Date pattern 2 (line 270): `\d{2}/\d{2}/\d{4}`, word-bounded. -/
def dateSteps2 : List Step :=
  [stepBnd, stepRep Char.isDigit 2, stepLit ['/'], stepRep Char.isDigit 2,
   stepLit ['/'], stepRep Char.isDigit 4, stepBnd]

/-- Date pattern 3 (line 271): `\d{4}-\d{2}-\d{2}`, word-bounded. -/
def dateSteps3 : List Step :=
  [stepBnd, stepRep Char.isDigit 4, stepLit ['-'], stepRep Char.isDigit 2,
   stepLit ['-'], stepRep Char.isDigit 2, stepBnd]

/-- Date pattern 4 (line 272): `\d{4}`, `\s*`, dash, `\s*`, one of
Present/Current/Now, word-bounded. -/
def dateSteps4 : List Step :=
  [stepBnd, stepRep Char.isDigit 4, stepStar pyWs, stepLit ['-'],
   stepStar pyWs, stepAltLit (["Present", "Current", "Now"].map String.data),
   stepBnd]

/-- Email pattern (line 285). -/
def emailSteps : List Step :=
  [stepBnd,
   stepPlus (fun c => c.isAlphanum || c = '.' || c = '_' || c = '%' || c = '+' || c = '-'),
   stepLit ['@'],
   stepPlus (fun c => c.isAlphanum || c = '.' || c = '-'),
   stepLit ['.'],
   stepRepAtLeast (fun c => c.isUpper || c = '|' || c.isLower) 2,
   stepBnd]

/-- Phone pattern (line 286): optional plus-prefixed country code, three
digits with optional parentheses, then 3 and 4 digits with optional
separators, word-bounded at both ends. -/
def phoneSteps : List Step :=
  [stepBnd,
   stepOpt [stepLit ['+'], stepRepRange Char.isDigit 1 3, stepOpt [stepCls pyWs]],
   stepAlt [[stepLit ['('], stepRep Char.isDigit 3, stepLit [')']],
            [stepRep Char.isDigit 3]],
   stepOpt [stepCls (fun c => c = '-' || c = '.' || pyWs c)],
   stepRep Char.isDigit 3,
   stepOpt [stepCls (fun c => c = '-' || c = '.' || pyWs c)],
   stepRep Char.isDigit 4,
   stepBnd]

/-- LinkedIn URL pattern (line 287). -/
def linkedinSteps : List Step :=
  [stepLit "linkedin.com/in/".data,
   stepPlus (fun c => c.isAlphanum || c = '_' || c = '-')]

/-- GitHub URL pattern (line 288). -/
def githubSteps : List Step :=
  [stepLit "github.com/".data,
   stepPlus (fun c => c.isAlphanum || c = '_' || c = '-')]

/-- Faithful model of `check_formatting` (lines 230-298), on the text as
given (the function itself does not lowercase). -/
def check_formatting (text : List Char) : ℚ :=
  let totalBullets :=
    pyCount text "•".data + pyCount text "- ".data + pyCount text "* ".data +
      countPat numbAt text
  let s1 : ℚ :=
    if 10 ≤ totalBullets then 0.35
    else if 5 ≤ totalBullets then 0.25
    else if 0 < totalBullets then 0.15
    else 0
  let headersCount :=
    countPat hdr1At text + countPat hdr2At text + countPat hdr3At text +
      countPat hdr4At text
  let s2 : ℚ :=
    if 5 ≤ headersCount then 0.35
    else if 3 ≤ headersCount then 0.25
    else if 0 < headersCount then 0.15
    else 0
  let dateFormatsFound :=
    ([dateSteps1, dateSteps2, dateSteps3, dateSteps4].filter
      (fun p => reSearch p text)).length
  let s3 : ℚ := min 0.15 ((dateFormatsFound : ℚ) * 0.05)
  let contactScore : ℚ :=
    0.05 * (([emailSteps, phoneSteps, linkedinSteps, githubSteps].filter
      (fun p => reSearch p text)).length : ℚ)
  let s4 : ℚ := min 0.15 contactScore
  min (s1 + s2 + s3 + s4) 1

/-! Fuzzy similarity (`get_skill_similarity`, lines 226-228), which wraps
`difflib.SequenceMatcher(None, a, b).ratio()`. With no junk predicate
and inputs shorter than the autojunk threshold of 200, the difflib
longest-match selection reduces to: take the cell, in row-major scan
order of match end positions, that first attains the maximal length of a
common substring; the two extension loops are then no-ops. -/

def commonPrefLen : List Char → List Char → Nat
  | a :: as, b :: bs => if a = b then 1 + commonPrefLen as bs else 0
  | _, _ => 0

/-- Longest common suffix length of two lists. -/
def commonSuffixLen (x y : List Char) : Nat := commonPrefLen x.reverse y.reverse

/-- difflib `find_longest_match` on whole windows: returns (start in a,
start in b, size) of the longest matching block, earliest end position
(row-major) on ties, size 0 if no common character. -/
def bestCell (aw bw : List Char) : Nat × Nat × Nat :=
  (List.range aw.length).foldl (fun acc iE =>
    (List.range bw.length).foldl (fun acc2 jE =>
      let k := commonSuffixLen (aw.take (iE + 1)) (bw.take (jE + 1))
      if acc2.2.2 < k then (iE + 1 - k, jE + 1 - k, k) else acc2) acc)
    (0, 0, 0)

/-- difflib `get_matching_blocks` total matched size: recursively split
around the longest matching block. -/
def matchTotal : Nat → List Char → List Char → Nat
  | 0, _, _ => 0
  | fuel + 1, aw, bw =>
    let c := bestCell aw bw
    if c.2.2 = 0 then 0
    else
      c.2.2 + matchTotal fuel (aw.take c.1) (bw.take c.2.1) +
        matchTotal fuel (aw.drop (c.1 + c.2.2)) (bw.drop (c.2.1 + c.2.2))

/-- difflib `SequenceMatcher.ratio()`: twice the matched size over the
total length (1.0 when both inputs are empty). -/
def seqMatchQ (a b : List Char) : ℚ :=
  if a.length + b.length = 0 then 1
  else 2 * (matchTotal (a.length + b.length + 1) a b : ℚ) /
    ((a.length : ℚ) + (b.length : ℚ))

/-- Faithful model of `get_skill_similarity` (lines 226-228). -/
def get_skill_similarity (a b : List Char) : ℚ :=
  seqMatchQ (pyLower a) (pyLower b)

/-! Keyword Matcher (`check_keywords`, lines 127-224). -/

def techTerms : List String :=
  ["python", "java", "javascript", "react", "aws", "cloud", "ml", "ai",
   "docker", "kubernetes", "sql", "nosql", "devops", "security"]

def frameworkTerms : List String :=
  ["react", "angular", "vue", "django", "flask", "spring", "express",
   "tensorflow", "pytorch", "scikit-learn"]

def cloudTerms : List String :=
  ["aws", "azure", "gcp", "cloud", "s3", "ec2", "lambda", "kubernetes",
   "docker", "terraform"]

/-- Importance weight of a (lowercased) keyword (lines 137-162): base 1.0
plus 0.5 / 0.3 / 0.4 for a substring from the technical, framework and
cloud vocabularies respectively. -/
def keywordWeight (kwLower : List Char) : ℚ :=
  1 + (if techTerms.any (fun t => containsSub kwLower t.data) then 0.5 else 0)
    + (if frameworkTerms.any (fun t => containsSub kwLower t.data) then 0.3 else 0)
    + (if cloudTerms.any (fun t => containsSub kwLower t.data) then 0.4 else 0)

/-- The punctuation class stripped by `check_keywords` preprocessing
(line 133). -/
def kwPunct (c : Char) : Bool :=
  c = '.' || c = ',' || c = ';' || c = ':' || c = '!' || c = '?' ||
  c = '(' || c = ')' || c = '[' || c = ']' || c = '{' || c = '}'

def collapseWsAux : Bool → List Char → List Char
  | _, [] => []
  | prevWs, c :: t =>
    if pyWs c then
      if prevWs then collapseWsAux true t else ' ' :: collapseWsAux true t
    else c :: collapseWsAux false t

/-- Preprocessing of `check_keywords` (lines 133-134): punctuation to
spaces, whitespace runs collapsed to single spaces, then stripped. -/
def cleanResume (text : List Char) : List Char :=
  pyStrip (collapseWsAux false (text.map (fun c => if kwPunct c then ' ' else c)))

/-- Per-keyword matching tiers of `check_keywords` (lines 167-199) for one
lowercased keyword of weight w against the cleaned resume: exact
space-bounded match (factor 1.0); for multi-word keywords, all sub-words
longer than 3 characters present with first occurrences spanning less
than 50 characters (factor 0.9) — `max()` of the empty position list
raises ValueError when no sub-word is longer than 3 characters — else,
for keywords of more than two sub-words, at least 70 percent of the
sub-words present and longer than 3 characters (factor 0.7); fuzzy
single-word match above similarity 0.8 (factor 0.6). Returns the entry
recorded in the matches dict, none if unmatched. -/
def kwMatchEntry (clean kw : List Char) (w : ℚ) : Except PyErr (Option ℚ) :=
  if containsSub (' ' :: (clean ++ [' '])) (' ' :: (kw ++ [' '])) then
    .ok (some w)
  else
    let multi : Except PyErr (Option ℚ) :=
      if kw.contains ' ' then
        let parts := pySplitWs kw
        let b2 : Option ℚ :=
          if 2 < parts.length &&
              decide (((parts.countP (fun p => containsSub clean p && decide (3 < p.length))) : ℚ) ≥
                (parts.length : ℚ) * 0.7) then
            some (w * 0.7)
          else none
        let longParts := parts.filter (fun p => decide (3 < p.length))
        if longParts.all (fun p => containsSub clean p) then
          let positions := longParts.map (fun p => pyFind clean p)
          if positions.all (fun pos => pos ≠ -1) then
            match positions with
            | [] => .error .valueError
            | p :: ps =>
              if ps.foldl max p - ps.foldl min p < 50 then .ok (some (w * 0.9))
              else .ok b2
          else .ok b2
        else .ok b2
      else .ok none
    match multi with
    | .error e => .error e
    | .ok (some v) => .ok (some v)
    | .ok none =>
      if (pySplitWs kw).length = 1 && decide (3 < kw.length) then
        if (pySplitWs clean).any
            (fun wd => decide (3 < wd.length) && decide (get_skill_similarity kw wd > 0.8)) then
          .ok (some (w * 0.6))
        else .ok none
      else .ok none

/-- Context bonus of `check_keywords` (lines 212-222): 0.1 for each of the
experience / skills / projects section lines (leftmost match of the
section-heading pattern) containing at least one matched keyword. The
search runs with IGNORECASE, modelled on the lowercased text. -/
def kwContextBonus (lowText : List Char) (matchedKeys : List (List Char)) : ℚ :=
  (["experience", "skills", "projects"].map (fun sec =>
    match sectionSpan sec.data lowText with
    | some se =>
      let sectionText := (lowText.drop se.1).take (se.2 - se.1)
      if 0 < (matchedKeys.filter (fun kw => containsSub sectionText kw)).length
      then (0.1 : ℚ) else 0
    | none => (0 : ℚ))).sum

/-- Faithful model of `check_keywords` (lines 127-224). The resume text is
received as the caller passes it (already lowercased inside
`ats_score`); keywords are lowercased and deduplicated into the
importance dict. Raises exactly where the source does. -/
def check_keywords (text : List Char) (jobKeywords : List (List Char)) :
    Except PyErr ℚ :=
  if jobKeywords = [] then .ok 0
  else
    let clean := cleanResume text
    let kws := dedupFirst (jobKeywords.map pyLower)
    let totalWeight : ℚ := (kws.map keywordWeight).sum
    match kws.mapM (fun k => (kwMatchEntry clean k (keywordWeight k)).map (fun o => (k, o))) with
    | .error e => .error e
    | .ok entries =>
      let matched := entries.filterMap (fun ko => ko.2.map (fun v => (ko.1, v)))
      if totalWeight = 0 then .ok 0
      else
        let weightedScore := (matched.map Prod.snd).sum / totalWeight
        let densityBonus : ℚ :=
          min 0.3 (((matched.length : ℚ) / ((max 1 jobKeywords.length : Nat) : ℚ)) * 0.5)
        let contextBonus : ℚ :=
          if 0 < matched.length then kwContextBonus (pyLower text) (matched.map Prod.fst)
          else 0
        .ok (min 1 (weightedScore + densityBonus + contextBonus))

/-! Context-Relevance Analyzer (`check_context_relevance`, lines 300-330). -/

/-- The next-section pattern of line 315: newline, `\s*`, `[A-Z]`,
`[A-Z\s]+`, `\s*`, then a colon or the end anchor. Searched with
IGNORECASE, modelled on lowercased text where `[A-Z]` is any ASCII
letter. -/
def nextSectionSteps : List Step :=
  [stepLit ['\n'], stepStar pyWs, stepCls Char.isAlpha,
   stepPlus (fun c => c.isAlpha || pyWs c), stepStar pyWs,
   stepAlt [[stepLit [':']], [stepEos]]]

/-- Faithful model of `check_context_relevance` (lines 300-330): for each
of the four key section names, locate the leftmost section-heading line;
the section extends to the start of the next all-caps-shaped heading
found in the text after it (or to the end); count keywords occurring in
that span and accumulate the weighted ratio; cap at 1. -/
def check_context_relevance (text : List Char) (jobKeywords : List (List Char)) : ℚ :=
  if jobKeywords = [] then 0
  else
    let lt := pyLower text
    let total :=
      (["experience", "project", "skill", "education"].map (fun sec =>
        match sectionSpan sec.data lt with
        | none => (0 : ℚ)
        | some se =>
          let sectionStart := se.1
          let sectionEnd :=
            match reSearchPos nextSectionSteps (lt.drop (sectionStart + 1)) with
            | some p => sectionStart + 1 + p
            | none => lt.length
          let sectionText := (lt.drop sectionStart).take (sectionEnd - sectionStart)
          let cnt := (jobKeywords.filter (fun kw => containsSub sectionText (pyLower kw))).length
          let weight : ℚ := if sec = "experience" || sec = "skill" then 0.4 else 0.2
          ((cnt : ℚ) / (jobKeywords.length : ℚ)) * weight)).sum
    min total 1

/-! The heuristic entry point (`ats_score`, lines 332-354). -/

/-- Keyword preprocessing of `ats_score` line 338: strip each keyword and
drop the ones that are empty after stripping. -/
def stripKeywords (jobKeywords : List String) : List (List Char) :=
  (jobKeywords.map (fun k => pyStrip k.data)).filter (fun k => k ≠ [])

/-- Faithful model of `ats_score` (lines 332-354): 0.0 on falsy input,
otherwise lowercase the resume, strip the keywords, and run the four
analyzers under the fixed weights; the call to `check_sections` raises
UnboundLocalError (see `check_sections`), and `check_keywords` can raise
ValueError, so the result is an `Except`. -/
def ats_score (resumeText : String) (jobKeywords : List String) : Except PyErr ℚ :=
  if resumeText = "" ∨ jobKeywords = [] then .ok 0
  else
    let lt := pyLower resumeText.data
    let kws := stripKeywords jobKeywords
    match check_sections lt with
    | .error e => .error e
    | .ok s =>
      match check_keywords lt kws with
      | .error e => .error e
      | .ok k =>
        let f := check_formatting lt
        let c := check_context_relevance lt kws
        .ok (pyRound2 ((s * 0.25 + k * 0.35 + f * 0.20 + c * 0.20) * 100))

/-- The `ats_score` pipeline over the intended (template-slip-repaired)
section detector `check_sections_intended`; everything else is the
faithful model, including the lowercasing of the resume before all four
analyzers and the possible ValueError from `check_keywords`. -/
def ats_score_intended (resumeText : String) (jobKeywords : List String) :
    Except PyErr ℚ :=
  if resumeText = "" ∨ jobKeywords = [] then .ok 0
  else
    let lt := pyLower resumeText.data
    let kws := stripKeywords jobKeywords
    let s := check_sections_intended lt
    match check_keywords lt kws with
    | .error e => .error e
    | .ok k =>
      let f := check_formatting lt
      let c := check_context_relevance lt kws
      .ok (pyRound2 ((s * 0.25 + k * 0.35 + f * 0.20 + c * 0.20) * 100))

/-- Modelled from the claim wording for comparison: the same intended
pipeline but with the Formatting Analyzer applied to the caller-supplied
raw resume text instead of the lowercased copy, as the specification
sentence about the Formatting Analyzer input describes. -/
def ats_score_spec_raw_format (resumeText : String) (jobKeywords : List String) :
    Except PyErr ℚ :=
  if resumeText = "" ∨ jobKeywords = [] then .ok 0
  else
    let lt := pyLower resumeText.data
    let kws := stripKeywords jobKeywords
    let s := check_sections_intended lt
    match check_keywords lt kws with
    | .error e => .error e
    | .ok k =>
      let f := check_formatting resumeText.data
      let c := check_context_relevance lt kws
      .ok (pyRound2 ((s * 0.25 + k * 0.35 + f * 0.20 + c * 0.20) * 100))

/-! Semantic Scorer (`ATSScorer`, lines 356-479), module-level singleton
(lines 20, 481-486) and combined entry point (lines 488-515). The
embedding model provider is opaque: `Provider.encodeSim` abstracts the
batched `model.encode` of both texts followed by cosine similarity, and
may raise. `get_sentence_transformer()` raising in `__init__` is
modelled by constructing the scorer from `none`; then `initialized` is
false, which the model collapses into `model = none`. -/

structure Provider where
  encodeSim : String → String → Except Unit ℚ

structure ATSScorer where
  model : Option Provider
  deriving Inhabited

structure FormatAnalysis where
  score : ℚ
  issues : List String
  suggestions : List String
  deriving DecidableEq, Repr

structure ContentAnalysis where
  keyword_match : Nat
  missing_keywords : List String
  suggestions : List String
  deriving DecidableEq, Repr

/-- The dict returned by `ATSScorer.calculate_ats_score` (always these
three keys). -/
structure ScoreResult where
  ats_score : ℚ
  format_analysis : FormatAnalysis
  content_analysis : ContentAnalysis
  deriving DecidableEq, Repr

/-- The dict returned by the module-level `calculate_ats_score` after
`result.update(...)` (lines 498-502). -/
structure AnalysisResult where
  ats_score : ℚ
  format_analysis : FormatAnalysis
  content_analysis : ContentAnalysis
  strengths : List String
  weaknesses : List String
  improvements : List String
  deriving DecidableEq, Repr

/-- Lowercased whitespace-split word set of a text, as
`set(text.lower().split())`; insertion-ordered. -/
def wordSet (s : String) : List (List Char) := dedupFirst (pySplitWs (pyLower s.data))

/-- The distinct job-description words also present in the resume
(`resume_words.intersection(job_words)`). -/
def commonWords (r j : String) : List (List Char) :=
  (wordSet j).filter (fun w => w ∈ wordSet r)

/-- Faithful model of `ATSScorer._basic_ats_score` (lines 411-433). -/
def basicAtsScore (r j : String) : ScoreResult :=
  let jw := wordSet j
  let common := commonWords r j
  let matchScore : ℚ := if jw = [] then 0 else ((common.length : ℚ) / (jw.length : ℚ)) * 100
  { ats_score := matchScore * 0.8,
    format_analysis :=
      { score := 50,
        issues := ["Basic analysis only"],
        suggestions := ["Try again later for detailed format analysis"] },
    content_analysis :=
      { keyword_match := common.length,
        missing_keywords := (jw.filter (fun w => w ∉ wordSet r)).map (fun w => String.mk w),
        suggestions := ["Add missing keywords to improve ATS score"] } }

/-- Faithful model of `ATSScorer._analyze_format` (lines 435-458); the
set difference for the issue message is modelled in list order. -/
def analyzeFormat (r : String) : FormatAnalysis :=
  let secs := ["education", "experience", "skills", "projects"]
  let found := secs.filter (fun s => containsSub (pyLower r.data) s.data)
  let missing := secs.filter (fun s => s ∉ found)
  { score := ((found.length : ℚ) / 4) * 100,
    issues :=
      if found.length < 4 then
        ["Missing sections: " ++ String.intercalate ", " missing]
      else [],
    suggestions :=
      ["Ensure all major sections are present",
       "Use consistent formatting throughout",
       "Include clear section headers"] }

/-- Faithful model of `ATSScorer._analyze_content` (lines 460-479); set
iteration is modelled in insertion order. -/
def analyzeContent (r j : String) : ContentAnalysis :=
  let jw := wordSet j
  let matching := commonWords r j
  let missing := jw.filter (fun w => w ∉ wordSet r)
  { keyword_match := matching.length,
    missing_keywords := missing.map (fun w => String.mk w),
    suggestions :=
      if missing ≠ [] then
        ["Add these keywords: " ++
          String.intercalate ", " ((missing.take 5).map (fun w => String.mk w))]
      else [] }

/-- Faithful model of the method `ATSScorer.calculate_ats_score`
(lines 373-409): the basic path when not initialized, the basic path
when the provider raises during encode/similarity, and otherwise the
similarity-based result. -/
def ATSScorer.calculate_ats_score (s : ATSScorer) (r j : String) : ScoreResult :=
  match s.model with
  | none => basicAtsScore r j
  | some p =>
    match p.encodeSim r j with
    | .error _ => basicAtsScore r j
    | .ok sim =>
      { ats_score := sim * 100,
        format_analysis := analyzeFormat r,
        content_analysis := analyzeContent r j }

/-- Model of `ATSScorer.__init__` / `_initialize_model` (lines 356-371):
the provider-initialization outcome is the argument; on failure the
scorer is left uninitialized. -/
def ATSScorer.make (pi : Option Provider) : ATSScorer := { model := pi }

/-- Faithful model of `get_ats_scorer` (lines 481-486) with the module
global `_ats_scorer` passed and returned explicitly: create the scorer
only when the global is still None, else reuse it. `pi` is the outcome
`get_sentence_transformer()` would produce if called now. -/
def get_ats_scorer (gs : Option ATSScorer) (pi : Option Provider) :
    ATSScorer × Option ATSScorer :=
  match gs with
  | some s => (s, some s)
  | none => (ATSScorer.make pi, some (ATSScorer.make pi))

/-! Insight Generator (lines 517-617). Each of the three functions wraps
its body in `try/except Exception: return []`. Every body begins by
calling `extract_required_skills(job_description)` (lines 523, 557,
591), and none of `extract_required_skills`, `extract_skills`,
`extract_experience_level`, `extract_experience_years`,
`extract_education_requirements`, `extract_education`,
`is_well_formatted` is defined or imported anywhere in the module, so
each body raises NameError at that first call, before producing any
list item. -/

/-- Body of `identify_strengths` (lines 519-545): raises NameError at the
`extract_required_skills` call on line 523. -/
def identify_strengths_body (_r _j : String) : Except PyErr (List String) :=
  .error .nameError

/-- Faithful model of `identify_strengths` (lines 517-549). -/
def identify_strengths (r j : String) : List String :=
  match identify_strengths_body r j with
  | .ok l => l
  | .error _ => []

/-- Body of `identify_weaknesses` (lines 553-579): raises NameError at the
`extract_required_skills` call on line 557. -/
def identify_weaknesses_body (_r _j : String) : Except PyErr (List String) :=
  .error .nameError

/-- Faithful model of `identify_weaknesses` (lines 551-583). -/
def identify_weaknesses (r j : String) : List String :=
  match identify_weaknesses_body r j with
  | .ok l => l
  | .error _ => []

/-- Body of `suggest_improvements` (lines 587-613): raises NameError at
the `extract_required_skills` call on line 591. -/
def suggest_improvements_body (_r _j : String) : Except PyErr (List String) :=
  .error .nameError

/-- Faithful model of `suggest_improvements` (lines 585-617). -/
def suggest_improvements (r j : String) : List String :=
  match suggest_improvements_body r j with
  | .ok l => l
  | .error _ => []

/-- The `result.update({...})` of lines 498-502. -/
def withInsights (sr : ScoreResult) (r j : String) : AnalysisResult :=
  { ats_score := sr.ats_score,
    format_analysis := sr.format_analysis,
    content_analysis := sr.content_analysis,
    strengths := identify_strengths r j,
    weaknesses := identify_weaknesses r j,
    improvements := suggest_improvements r j }

/-- Faithful model of the module-level `calculate_ats_score`
(lines 488-515) with the global singleton threaded explicitly. Every
step of the body is total in the model (the scorer method and the
insight functions absorb their own failures), so the top-level
`except` branch returning the all-zero result is unreachable and the
model returns the updated result directly. -/
def calculate_ats_score (gs : Option ATSScorer) (pi : Option Provider)
    (r j : String) : AnalysisResult × Option ATSScorer :=
  let sg := get_ats_scorer gs pi
  (withInsights (sg.1.calculate_ats_score r j) r j, sg.2)

/-- Concrete resume used to probe the multi-word keyword tiers: both
sub-words of the keyword are present but 55 characters apart. -/
def c6resume : String :=
  "alpha xxxxxxxxxxxxxxxxxxxxxxxxxxxxxxxxxxxxxxxxxxxxxxxx beta"


deriving instance DecidableEq for Except

/-! Helper lemmas. -/

theorem isPrefixOf_nil_iff (n : List Char) : n.isPrefixOf [] = true ↔ n = [] := by
  cases n <;> simp [List.isPrefixOf]

theorem pyFindAux_nonneg (n : List Char) :
    ∀ (h : List Char) (i : Nat), containsSub h n = true → 0 ≤ pyFindAux n h i := by
  intro h
  induction h with
  | nil =>
    intro i hc
    simp only [containsSub, List.isEmpty_iff] at hc
    subst hc
    simp [pyFindAux, List.isPrefixOf]
  | cons c t ih =>
    intro i hc
    simp only [containsSub, Bool.or_eq_true] at hc
    unfold pyFindAux
    by_cases hp : n.isPrefixOf (c :: t) = true
    · simp [hp]
    · rcases hc with hc | hc
      · exact absurd hc hp
      · simp only [hp, if_false, Bool.false_eq_true]
        exact ih (i + 1) hc

/-- A substring that is present has a non-negative find index. -/
theorem pyFind_nonneg (hay n : List Char) (hc : containsSub hay n = true) :
    0 ≤ pyFind hay n :=
  pyFindAux_nonneg n hay 0 hc

/-! Claim theorems. -/

/-- C1: the claim that for every resume text and keyword list
`ats_score` returns a float in [0, 100] rounded to 2 decimals is wrong
on the code: for any non-empty input the call raises UnboundLocalError,
because the header templates of `check_sections` are `fr''` strings that
interpolate the loop variable `keyword` before its first assignment.
This theorem evaluates the model at such an input: no value is
returned. -/
theorem ats_score_c1_raises_on_nonempty_input :
    ats_score "experience" ["python"] = .error .unboundLocalError := rfl

/-- C2: the claim that neither primary entry point ever raises is wrong
for `ats_score`: every call with non-empty inputs raises
UnboundLocalError out of `check_sections` (and `check_keywords` can
additionally raise ValueError from `max()` on an empty sequence). This
theorem evaluates the model at a failing input. -/
theorem ats_score_c2_entry_point_raises :
    ats_score "skills python" ["java"] = .error .unboundLocalError := rfl

/-- C3: the empty-input half of the claim holds — `ats_score` returns
exactly 0.0 whenever the resume text or the keyword list is empty — but
the non-empty half fails: instead of the weighted formula, the call
raises UnboundLocalError (see C1). -/
theorem ats_score_c3_empty_zero_nonempty_raises :
    (∀ (r : String) (k : List String), r = "" ∨ k = [] → ats_score r k = .ok 0) ∧
    ats_score "summary" ["sql"] = .error .unboundLocalError := by
  constructor
  · intro r k h
    unfold ats_score
    rw [if_pos h]
  · rfl

/-- Witness for C3 at concrete inputs on both sides of the disjunctive
hypothesis. -/
theorem ats_score_c3_witness :
    ats_score "" ["x"] = .ok 0 ∧ ats_score "resume" [] = .ok 0 :=
  ⟨ats_score_c3_empty_zero_nonempty_raises.1 "" ["x"] (Or.inl rfl),
   ats_score_c3_empty_zero_nonempty_raises.1 "resume" [] (Or.inr rfl)⟩

/-- C4: when the scorer is uninitialized, or the provider raises during
the embedding/similarity computation, the method
`ATSScorer.calculate_ats_score` returns the `_basic_ats_score` result:
all three keys are present, and `ats_score` is the word-overlap ratio
times 100 times 0.8 (0 when the job description has no words). -/
theorem calculate_c4_degraded_mode (s : ATSScorer) (r j : String)
    (h : s.model = none ∨ ∃ p, s.model = some p ∧ p.encodeSim r j = .error ()) :
    s.calculate_ats_score r j = basicAtsScore r j ∧
    (s.calculate_ats_score r j).ats_score =
      (if wordSet j = [] then 0
       else ((commonWords r j).length : ℚ) / ((wordSet j).length : ℚ) * 100) * 0.8 ∧
    (s.calculate_ats_score r j).format_analysis.issues = ["Basic analysis only"] := by
  have hb : s.calculate_ats_score r j = basicAtsScore r j := by
    rcases h with h | ⟨p, hp, he⟩
    · simp [ATSScorer.calculate_ats_score, h]
    · simp [ATSScorer.calculate_ats_score, hp, he]
  refine ⟨hb, ?_, ?_⟩ <;> rw [hb] <;> rfl

/-- Witness for C4: an uninitialized scorer on concrete texts. -/
theorem calculate_c4_witness :
    (ATSScorer.make none).calculate_ats_score "python developer" "python" =
      basicAtsScore "python developer" "python" :=
  (calculate_c4_degraded_mode (ATSScorer.make none) "python developer" "python"
    (Or.inl rfl)).1

/-- C7: once the singleton scorer exists with a failed initialization,
every later `calculate_ats_score` call takes the degraded path, returns
with the global unchanged, and is independent of what a fresh provider
initialization would now produce (no re-attempt within a call);
`get_ats_scorer` constructs a scorer only when the global handle is
still None. -/
theorem calculate_c7_degraded_permanent (s : ATSScorer) (pi pi2 : Option Provider)
    (r j : String) (h : s.model = none) :
    calculate_ats_score (some s) pi r j =
      (withInsights (basicAtsScore r j) r j, some s) ∧
    calculate_ats_score (some s) pi r j = calculate_ats_score (some s) pi2 r j ∧
    get_ats_scorer (some s) pi = (s, some s) ∧
    get_ats_scorer none pi = (ATSScorer.make pi, some (ATSScorer.make pi)) := by
  refine ⟨?_, rfl, rfl, rfl⟩
  simp [calculate_ats_score, get_ats_scorer, ATSScorer.calculate_ats_score, h]

/-- Witness for C7: a concretely failed scorer. -/
theorem calculate_c7_witness :
    calculate_ats_score (some (ATSScorer.make none)) none "a" "b" =
      (withInsights (basicAtsScore "a" "b") "a" "b", some (ATSScorer.make none)) :=
  (calculate_c7_degraded_permanent (ATSScorer.make none) none none "a" "b" rfl).1

/-- C8: calling the combined entry point twice with identical inputs
yields the identical result and global state: the second call, started
from the state the first call leaves behind, returns exactly what the
first call returned. The heuristic `ats_score` reads no module state at
all in the model (its two calls are the same pure application), and the
scorer mode is fixed by the first initialization attempt, which the
threaded state captures. -/
theorem calculate_c8_idempotent (gs : Option ATSScorer) (pi : Option Provider)
    (r j : String) :
    calculate_ats_score ((calculate_ats_score gs pi r j).2) pi r j =
      calculate_ats_score gs pi r j := by
  cases gs <;> rfl

/-- C9: the three insight functions never propagate an exception: each
body fails (NameError from the undefined extraction helpers), the
handler absorbs it, and the function returns the empty list. -/
theorem insights_c9_never_raise (r j : String) :
    identify_strengths_body r j = .error .nameError ∧
    identify_strengths r j = [] ∧
    identify_weaknesses_body r j = .error .nameError ∧
    identify_weaknesses r j = [] ∧
    suggest_improvements_body r j = .error .nameError ∧
    suggest_improvements r j = [] :=
  ⟨rfl, rfl, rfl, rfl, rfl, rfl⟩

/-- C10: for every input pair the three insight functions return the
empty list — the extraction helpers they call are not defined anywhere
in the module, so the catch-all always fires — and consequently the
combined entry point always carries empty strengths, weaknesses and
improvements. -/
theorem insights_c10_always_empty (gs : Option ATSScorer) (pi : Option Provider)
    (r j : String) :
    identify_strengths r j = [] ∧ identify_weaknesses r j = [] ∧
    suggest_improvements r j = [] ∧
    (calculate_ats_score gs pi r j).1.strengths = [] ∧
    (calculate_ats_score gs pi r j).1.weaknesses = [] ∧
    (calculate_ats_score gs pi r j).1.improvements = [] := by
  cases gs <;> exact ⟨rfl, rfl, rfl, rfl, rfl, rfl⟩

unseal Rat.mul Rat.add Rat.sub Rat.inv Rat.ofScientific in
/-- C5: the claim that within the `ats_score` pipeline the Formatting
Analyzer operates on the raw (case-preserved) resume text is wrong: line
337 lowercases the resume before line 343 passes it to
`check_formatting`, whose header and date patterns are case-sensitive.
At this concrete input the intended pipeline scores 40.0 while the
claim-following variant (formatting on the raw text) scores 43.0, and
`check_formatting` itself differs between the raw and lowercased text.
(The faithful `ats_score` raises UnboundLocalError before reaching the
formatting step at all; the comparison is made on the intended,
template-slip-repaired pipeline.) -/
theorem ats_score_c5_counterexample :
    ats_score_intended "\nSKILLS:\npython developer\n" ["python"] = .ok 40 ∧
    ats_score_spec_raw_format "\nSKILLS:\npython developer\n" ["python"] = .ok 43 ∧
    check_formatting "\nSKILLS:\npython developer\n".data ≠
      check_formatting (pyLower "\nSKILLS:\npython developer\n".data) := by
  refine ⟨by decide, by decide, by decide⟩

/-- C5 amended: within the (template-slip-repaired) `ats_score` pipeline
the Formatting Analyzer operates on the lowercased copy of the resume:
whenever the pipeline returns, its value is the rounded weighted formula
with `check_formatting` applied to the lowercased text. -/
theorem ats_score_c5_amended (r : String) (k : List String)
    (h : ¬(r = "" ∨ k = [])) :
    ats_score_intended r k =
      (check_keywords (pyLower r.data) (stripKeywords k)).map (fun kq =>
        pyRound2 ((check_sections_intended (pyLower r.data) * 0.25 + kq * 0.35 +
          check_formatting (pyLower r.data) * 0.20 +
          check_context_relevance (pyLower r.data) (stripKeywords k) * 0.20) * 100)) := by
  unfold ats_score_intended
  rw [if_neg h]
  cases hk : check_keywords (pyLower r.data) (stripKeywords k) <;>
    simp [hk, Except.map]

/-- Witness for C5 amended at a concrete non-empty input. -/
theorem ats_score_c5_amended_witness :
    ats_score_intended "a" ["b"] =
      (check_keywords (pyLower "a".data) (stripKeywords ["b"])).map (fun kq =>
        pyRound2 ((check_sections_intended (pyLower "a".data) * 0.25 + kq * 0.35 +
          check_formatting (pyLower "a".data) * 0.20 +
          check_context_relevance (pyLower "a".data) (stripKeywords ["b"]) * 0.20) * 100)) :=
  ats_score_c5_amended "a" ["b"] (by decide)

unseal Rat.mul Rat.add Rat.sub Rat.inv Rat.ofScientific in
/-- C6: the claim about multi-word keyword tiers is wrong in its 0.7
tier: the code additionally requires strictly more than two sub-words
(line 189, `len(kw_parts) > 2`). For the two-word keyword and resume
below, every sub-word longer than 3 characters is present (100 percent,
so at least 70 percent), there is no exact phrase match, and the
first-occurrence span is at least 50 so the 0.9 tier does not apply; the
claim then promises a 0.7-weighted contribution, but the matcher
records no entry at all for the keyword. -/
theorem check_keywords_c6_counterexample :
    containsSub (' ' :: (cleanResume c6resume.data ++ [' ']))
      (' ' :: ("alpha beta".data ++ [' '])) = false ∧
    (((pySplitWs "alpha beta".data).countP (fun p =>
        containsSub (cleanResume c6resume.data) p && decide (3 < p.length)) : ℚ) ≥
      ((pySplitWs "alpha beta".data).length : ℚ) * 0.7) ∧
    pyFind (cleanResume c6resume.data) "beta".data -
      pyFind (cleanResume c6resume.data) "alpha".data ≥ 50 ∧
    kwMatchEntry (cleanResume c6resume.data) "alpha beta".data 1 = .ok none := by
  refine ⟨by decide, by decide, by decide, by decide⟩

/-- C6 amended: for a multi-word keyword (at least two sub-words, hence
at least one longer than 3 characters here) with no exact phrase match,
the matcher records weight times 0.9 when all sub-words longer than 3
characters are present with first-occurrence span under 50; otherwise it
records weight times 0.7 only when the keyword has strictly more than
two sub-words and the number of its sub-words that are present and
longer than 3 characters reaches 70 percent of all its sub-words;
otherwise nothing. -/
theorem check_keywords_c6_amended (clean kw : List Char) (w : ℚ)
    (hexact : containsSub (' ' :: (clean ++ [' '])) (' ' :: (kw ++ [' '])) = false)
    (hmulti : kw.contains ' ' = true)
    (hone : (pySplitWs kw).length ≠ 1)
    (hlong : (pySplitWs kw).filter (fun p => decide (3 < p.length)) ≠ []) :
    kwMatchEntry clean kw w = .ok (
      let parts := pySplitWs kw
      let longParts := parts.filter (fun p => decide (3 < p.length))
      let positions := longParts.map (fun p => pyFind clean p)
      if longParts.all (fun p => containsSub clean p) &&
          decide (positions.tail.foldl max positions.headI -
            positions.tail.foldl min positions.headI < 50) then
        some (w * 0.9)
      else if decide (2 < parts.length) &&
          decide ((((parts.countP (fun p => containsSub clean p && decide (3 < p.length))) : ℚ)) ≥
            (parts.length : ℚ) * 0.7) then
        some (w * 0.7)
      else none) := by
  obtain ⟨q, qs, hq⟩ := List.exists_cons_of_ne_nil hlong
  unfold kwMatchEntry
  simp only [hexact, Bool.false_eq_true, if_false, hmulti, if_true]
  rw [hq]
  by_cases hall : ((q :: qs).all fun p => containsSub clean p) = true
  · have hall2 := hall
    rw [List.all_eq_true] at hall2
    have hq0 : ¬pyFind clean q = -1 := by
      have := pyFind_nonneg clean q (hall2 q (by simp))
      omega
    have hqs : ∀ a ∈ qs, ¬pyFind clean a = -1 := by
      intro a ha
      have := pyFind_nonneg clean a (hall2 a (by simp [ha]))
      omega
    by_cases hspan : List.foldl max (pyFind clean q) (List.map (fun p => pyFind clean p) qs) -
        List.foldl min (pyFind clean q) (List.map (fun p => pyFind clean p) qs) < 50
    · simp [hall, hq0, hqs, hspan, if_pos hqs]
    · by_cases hb2 : 2 < (pySplitWs kw).length ∧
          ((pySplitWs kw).length : ℚ) * 0.7 ≤
            ((List.countP (fun p => containsSub clean p && decide (3 < p.length))
              (pySplitWs kw) : Nat) : ℚ)
      · simp [hall, hq0, hqs, hspan, hb2, if_pos hqs]
      · simp [hall, hq0, hqs, hspan, hb2, hone, if_pos hqs]
  · by_cases hb2 : 2 < (pySplitWs kw).length ∧
        ((pySplitWs kw).length : ℚ) * 0.7 ≤
          ((List.countP (fun p => containsSub clean p && decide (3 < p.length))
            (pySplitWs kw) : Nat) : ℚ)
    · simp [hall, hb2]
    · simp [hall, hb2, hone]

unseal Rat.mul Rat.add Rat.sub Rat.inv Rat.ofScientific in
/-- Witness for C6 amended: a 0.9-tier and a 0.7-tier instance. -/
theorem check_keywords_c6_amended_witness :
    kwMatchEntry "machine blah learning".data "machine learning".data 1 =
      .ok (some 0.9) ∧
    kwMatchEntry "deep learning neural expert".data
      "deep learning neural nets".data 1 = .ok (some 0.7) := by
  constructor
  · rw [check_keywords_c6_amended _ _ _ (by decide) (by decide) (by decide) (by decide)]
    decide
  · rw [check_keywords_c6_amended _ _ _ (by decide) (by decide) (by decide) (by decide)]
    decide
